import Mathlib

/-!
# Verification of the hallpass backend core

Shallow embedding of the hallpass backend (FastAPI + Supabase) core logic:

* `backend/core/auth.py` and `backend/api/v1/auth.py` — role-based
  authorization (`require_role`);
* `backend/api/v1/passes.py` — the pass lifecycle endpoints
  (`request_pass`, `issue_pass`, `get_passes`, `get_pass`,
  `activate_pass`, `approve_pass`);
* `backend/api/v1/dashboards.py` — the analytics helpers
  (`get_school_teacher_averages`, `get_admin_metrics`).

The Supabase data store is modelled as in-memory lists (`Store`); each
query-builder chain (`.eq`, `.in_`, `.gte`, `.single`, `.order`, `.range`)
is translated to the corresponding `List` operation.  Timestamps are
abstract instants measured in minutes (`Int`), mirroring the code's use of
`datetime.utcnow()` plus `timedelta(minutes=...)` and lexicographic
comparison of ISO strings.  `datetime.utcnow()` becomes an explicit `now`
parameter; the id generated by the store for an inserted row becomes an
explicit `new_id` parameter.  HTTP error responses become the `Err`
inductive; the status code and detail string of each `HTTPException` are
recorded in the corresponding constructor (detail strings are kept
verbatim except that single-quote characters around interpolated values
are dropped).
-/

namespace Hallpass

/-- A profile row (`profiles` table): the fields the endpoints read. -/
structure Profile where
  id : Nat
  school_id : Nat
  role : String
  first_name : String
  last_name : String
  deriving DecidableEq, Repr

/-- A location row (`locations` table). -/
structure Location where
  id : Nat
  school_id : Nat
  name : String
  default_duration : Int
  requires_approval : Bool
  is_active : Bool
  is_early_release_only : Bool
  is_summons_only : Bool
  deriving DecidableEq, Repr

/-- A pass row (`passes` table). -/
structure Pass where
  id : Nat
  student_id : Nat
  location_id : Nat
  school_id : Nat
  status : String
  created_at : Int
  requested_start_time : Int
  requested_end_time : Int
  actual_start_time : Option Int
  actual_end_time : Option Int
  duration_minutes : Option Int
  approver_id : Option Nat
  approved_at : Option Int
  approval_notes : Option String
  student_reason : Option String
  is_summons : Bool
  is_early_release : Bool
  deriving DecidableEq, Repr

/-- The authenticated caller as returned by `get_current_user`:
`{id, email, role, school_id}` (email is irrelevant to the claims). -/
structure CurrentUser where
  id : Nat
  role : String
  school_id : Nat
  deriving DecidableEq, Repr

/-- The body of `POST /passes/request` and `POST /passes/issue`
(`PassCreateRequest` in `pass_schema.py`, lines 6–11).  Note that it
declares no `student_id` field, although `issue_pass` reads
`pass_request.student_id` — see `issue_pass` below. -/
structure PassCreateRequest where
  location_id : Nat
  student_reason : Option String
  requested_start_time : Option Int
  is_summons : Bool
  is_early_release : Bool
  deriving DecidableEq, Repr

/-- The in-memory model of the Supabase store. -/
structure Store where
  profiles : List Profile
  locations : List Location
  passes : List Pass
  deriving DecidableEq, Repr

/-- An `HTTPException` raised by an endpoint: constructor = status code.
`forbiddenRole` is the 403 raised by `require_role`, whose detail string
interpolates the required roles and the caller's role
(`f"Forbidden: requires role {...}, but user has role {...}"`); it is kept
structured so that both components are visible. -/
inductive Err where
  | badRequest (detail : String)
  | forbidden (detail : String)
  | forbiddenRole (requiredRoles : List String) (userRole : String)
  | notFound (detail : String)
  | internalError (detail : String)
  deriving DecidableEq, Repr

/-! ## Authorization guard

`require_role` in `backend/core/auth.py` (lines 62–97) and in
`backend/api/v1/auth.py` (lines 103–129) have the same body; this single
definition embeds both.  In Python it returns a dependency closure; here
it is curried over the already-authenticated caller. -/

/-- The guard `require_role(required_roles)` applied to the current user:
administrators always pass (hierarchical access); otherwise the user's
role must be listed in `required_roles`. -/
def require_role (required_roles : List String) (current_user : CurrentUser) :
    Except Err CurrentUser :=
  if current_user.role = "administrator" then
    .ok current_user
  else if current_user.role ∉ required_roles then
    .error (.forbiddenRole required_roles current_user.role)
  else
    .ok current_user

/-! ## Pass lifecycle endpoints (`backend/api/v1/passes.py`) -/

/-- Detail of the 400 raised by `request_pass` when the student already
holds a pass in `{pending, approved, active}`. -/
def alreadyActiveMsg : String :=
  "You already have an active pass. Please complete or cancel it before creating a new one."

/-- Detail of the 400 raised by `issue_pass` on the same check. -/
def studentAlreadyActiveMsg : String :=
  "Student already has an active pass"

/-- Detail of the 400 raised by `approve_pass` when the status is not
`pending` (the code interpolates the current status). -/
def cannotApproveMsg (st : String) : String :=
  "Cannot approve pass with status " ++ st ++ ". Only pending passes can be approved."

/-- Detail of the 400 raised by `activate_pass` when the status is not
`approved` (the code interpolates the current status). -/
def cannotActivateMsg (st : String) : String :=
  "Cannot activate pass with status " ++ st ++ ". Only approved passes can be activated."

/-- The non-terminal statuses used by the one-active-pass checks
(`.in_('status', ['pending', 'approved', 'active'])`). -/
def activeStatuses : List String := ["pending", "approved", "active"]

/-- The one-active-pass query of `request_pass` (lines 173–176) and
`issue_pass` (lines 277–280): does any pass of `student_id` have a status
in `activeStatuses`? -/
def hasActivePass (store : Store) (student_id : Nat) : Bool :=
  store.passes.any fun p => p.student_id = student_id && p.status ∈ activeStatuses

/-- The location lookup of `request_pass` (lines 148–150) and `issue_pass`
(lines 265–267): `.eq('id', location_id).eq('school_id', school_id).single()`.
Note that `is_active` is not part of the filter. -/
def findLocation (store : Store) (location_id school_id : Nat) : Option Location :=
  store.locations.find? fun l => l.id = location_id && l.school_id = school_id

/-- Endpoint `POST /passes/request` (`request_pass`, lines 133–235), for a caller
that already passed `require_student_role`.  Returns the created pass and
the updated store, or the `HTTPException` raised. -/
def request_pass (store : Store) (current_user : CurrentUser)
    (pass_request : PassCreateRequest) (now : Int) (new_id : Nat) :
    Except Err (Pass × Store) :=
  match findLocation store pass_request.location_id current_user.school_id with
  | none => .error (.notFound "Location not found")
  | some location =>
    if location.is_summons_only && !pass_request.is_summons then
      .error (.badRequest "This location is only accessible when summoned by staff")
    else if location.is_early_release_only && !pass_request.is_early_release then
      .error (.badRequest "This location is only accessible with an early release pass")
    else if hasActivePass store current_user.id then
      .error (.badRequest alreadyActiveMsg)
    else
      let start_time := pass_request.requested_start_time.getD now
      let end_time := start_time + location.default_duration
      let statusAndApproved : String × Option Int :=
        if location.requires_approval then ("pending", none) else ("approved", some now)
      let newPass : Pass :=
        { id := new_id
          student_id := current_user.id
          location_id := pass_request.location_id
          school_id := current_user.school_id
          status := statusAndApproved.1
          created_at := now
          requested_start_time := start_time
          requested_end_time := end_time
          actual_start_time := none
          actual_end_time := none
          duration_minutes := none
          approver_id := none
          approved_at := statusAndApproved.2
          approval_notes := none
          student_reason := pass_request.student_reason
          is_summons := pass_request.is_summons
          is_early_release := pass_request.is_early_release }
      .ok (newPass, { store with passes := store.passes ++ [newPass] })

/-- The 500 that `issue_pass` returns on every call: the first statement
of its try block reads `pass_request.student_id` (line 253), an
attribute `PassCreateRequest` (`pass_schema.py` lines 6–11) does not
declare, so an `AttributeError` is raised and the generic handler
(lines 329–333) wraps its message into the detail
`Error issuing pass: ...` (quote characters of the Python message
dropped). -/
def issuePassSchemaErr : Err :=
  .internalError "Error issuing pass: PassCreateRequest object has no attribute student_id"

/-- Endpoint `POST /passes/issue` (`issue_pass`, lines 237–333), for a
caller that already passed `require_teacher_role`.  The body's first
read, `pass_request.student_id`, names a field the pydantic request
schema does not declare, so every call raises inside the try block and
returns `issuePassSchemaErr`: the student lookup, the one-active-pass
check and the insert below it are never reached. -/
def issue_pass (store : Store) (current_user : CurrentUser)
    (pass_request : PassCreateRequest) : Except Err (Pass × Store) :=
  .error issuePassSchemaErr

/-- The remainder of `issue_pass` below the `pass_request.student_id`
read (lines 252–325), as it would run were a `student_id` value
available.  In the program this code is dead — the attribute read raises
first — and it is embedded separately only to settle claims about the
checks it contains (the one-active-pass check at lines 277–286). -/
def issue_pass_dead_body (store : Store) (current_user : CurrentUser)
    (pass_request : PassCreateRequest) (student_id : Nat) (now : Int) (new_id : Nat) :
    Except Err (Pass × Store) :=
  match store.profiles.find? fun pr =>
      pr.id = student_id && pr.school_id = current_user.school_id && pr.role = "student" with
  | none => .error (.notFound "Student not found or not in your school")
  | some _student =>
    match findLocation store pass_request.location_id current_user.school_id with
    | none => .error (.notFound "Location not found")
    | some location =>
      if hasActivePass store student_id then
        .error (.badRequest studentAlreadyActiveMsg)
      else
        let start_time := pass_request.requested_start_time.getD now
        let end_time := start_time + location.default_duration
        let newPass : Pass :=
          { id := new_id
            student_id := student_id
            location_id := pass_request.location_id
            school_id := current_user.school_id
            status := "approved"
            created_at := now
            requested_start_time := start_time
            requested_end_time := end_time
            actual_start_time := none
            actual_end_time := none
            duration_minutes := none
            approver_id := some current_user.id
            approved_at := some now
            approval_notes := some ("Issued by " ++ current_user.role)
            student_reason := pass_request.student_reason
            is_summons := pass_request.is_summons
            is_early_release := pass_request.is_early_release }
        .ok (newPass, { store with passes := store.passes ++ [newPass] })

/-- Endpoint `GET /passes/` (`get_passes`, lines 335–401): role-scoped filter, then
the optional status filter, then `order('created_at', desc=True)` and
`range(offset, offset + limit - 1)` (an inclusive range of `limit` rows). -/
def get_passes (store : Store) (current_user : CurrentUser)
    (status_filter : Option String) (limit offset : Nat) : List Pass :=
  let roleScoped : List Pass :=
    if current_user.role = "student" then
      store.passes.filter fun p => p.student_id = current_user.id
    else
      store.passes.filter fun p => p.school_id = current_user.school_id
  let filtered : List Pass :=
    match status_filter with
    | some s => roleScoped.filter fun p => p.status = s
    | none => roleScoped
  let ordered := filtered.mergeSort fun a b : Pass => decide (b.created_at ≤ a.created_at)
  (ordered.drop offset).take limit

/-- Endpoint `GET /passes/{pass_id}` (`get_pass`, lines 403–456): lookup by id,
then the role-specific permission checks. -/
def get_pass (store : Store) (current_user : CurrentUser) (pass_id : Nat) :
    Except Err Pass :=
  match store.passes.find? fun p => p.id = pass_id with
  | none => .error (.notFound "Pass not found")
  | some pass_data =>
    if current_user.role = "student" && pass_data.student_id ≠ current_user.id then
      .error (.forbidden "You can only view your own passes")
    else if (current_user.role = "teacher" || current_user.role = "administrator")
        && pass_data.school_id ≠ current_user.school_id then
      .error (.forbidden "You can only view passes from your school")
    else
      .ok pass_data

/-- Endpoint `PATCH /passes/{pass_id}/activate` (`activate_pass`, lines 458–525),
for a caller that already passed `require_student_role`.  The ownership
check is part of the lookup filter
(`.eq('id', pass_id).eq('student_id', current_user["id"]).single()`). -/
def activate_pass (store : Store) (current_user : CurrentUser)
    (pass_id : Nat) (now : Int) : Except Err (Pass × Store) :=
  match store.passes.find? fun p => p.id = pass_id && p.student_id = current_user.id with
  | none => .error (.notFound "Pass not found")
  | some pass_data =>
    if pass_data.status ≠ "approved" then
      .error (.badRequest (cannotActivateMsg pass_data.status))
    else
      let updated := { pass_data with status := "active", actual_start_time := some now }
      .ok (updated,
        { store with passes := store.passes.map fun q => if q.id = pass_id then updated else q })

/-- Endpoint `PATCH /passes/{pass_id}/approve` (`approve_pass`, lines 527–602),
for a caller that already passed `require_teacher_role`.  The same-school
check is part of the lookup filter
(`.eq('id', pass_id).eq('school_id', current_user["school_id"]).single()`). -/
def approve_pass (store : Store) (current_user : CurrentUser)
    (pass_id : Nat) (approval_notes : Option String) (now : Int) :
    Except Err (Pass × Store) :=
  match store.passes.find? fun p => p.id = pass_id && p.school_id = current_user.school_id with
  | none => .error (.notFound "Pass not found")
  | some pass_data =>
    if pass_data.status ≠ "pending" then
      .error (.badRequest (cannotApproveMsg pass_data.status))
    else
      let updated :=
        { pass_data with
            status := "approved"
            approver_id := some current_user.id
            approved_at := some now
            approval_notes := approval_notes }
      .ok (updated,
        { store with passes := store.passes.map fun q => if q.id = pass_id then updated else q })

/-! ## Analytics helpers (`backend/api/v1/dashboards.py`)

Durations are exact rationals (Python uses floats); `pyRound` models
Python's `round` (round half to even) on exact rationals. -/

/-- Python's `round(q, ndigits)`, round-half-to-even, on exact rationals. -/
def pyRound (ndigits : Nat) (q : ℚ) : ℚ :=
  let m : ℚ := (10 : ℚ) ^ ndigits
  let x := q * m
  let f : Int := Int.floor x
  let r : Int :=
    if x - f > 1/2 then f + 1
    else if x - f < 1/2 then f
    else if f % 2 = 0 then f else f + 1
  (r : ℚ) / m

/-- The duration a pass contributes to the duration averages (the loop
bodies at `dashboards.py` lines 193–201, 247–255 and 293–301): the
observed `actual_end_time - actual_start_time` when both are present,
else the stored `duration_minutes` when truthy (non-null and non-zero),
else nothing. -/
def passDuration (p : Pass) : Option ℚ :=
  match p.actual_start_time, p.actual_end_time with
  | some s, some e => some ((e - s : Int) : ℚ)
  | _, _ =>
    match p.duration_minutes with
    | some d => if d = 0 then none else some (d : ℚ)
    | none => none

/-- Models `sum(durations) / len(durations) if durations else None`. -/
def avgOfDurations (durations : List ℚ) : Option ℚ :=
  if durations.isEmpty then none else some (durations.sum / durations.length)

/-- Models `round(x, n) if x else None`: Python truthiness maps `None` and `0`
to `None`. -/
def roundedOrNone (ndigits : Nat) (x : Option ℚ) : Option ℚ :=
  match x with
  | none => none
  | some a => if a = 0 then none else some (pyRound ndigits a)

/-- The dict returned by `get_school_teacher_averages` (lines 215–267) on
its success path. -/
structure TeacherAveragesResult where
  avg_week_count : Option ℚ
  avg_month_count : Option ℚ
  avg_duration : Option ℚ
  has_data : Bool
  deriving DecidableEq, Repr

/-- The filter used by the week/month queries of
`get_school_teacher_averages`:
`.in_("approver_id", teacher_ids).gte("approved_at", cutoff)` (a null
`approved_at` never satisfies `gte`). -/
def approvedByTeacherSince (teacher_ids : List Nat) (cutoff : Int) (p : Pass) : Bool :=
  (match p.approver_id with
   | some a => teacher_ids.contains a
   | none => false) &&
  (match p.approved_at with
   | some t => cutoff ≤ t
   | none => false)

/-- Helper `get_school_teacher_averages(school_id, week_ago, month_ago)`
(`dashboards.py` lines 215–267): the per-teacher school-wide averages.
The divisor is `len(teacher_ids)`, the number of profiles in the school
with role `teacher`; when the school has no such profiles the function
returns early with `has_data = False`. -/
def get_school_teacher_averages (store : Store) (school_id : Nat)
    (week_ago month_ago : Int) : TeacherAveragesResult :=
  let teachers := store.profiles.filter fun pr =>
    pr.school_id = school_id && pr.role = "teacher"
  if teachers.isEmpty then
    { avg_week_count := none, avg_month_count := none, avg_duration := none, has_data := false }
  else
    let teacher_ids := teachers.map (·.id)
    let week_passes := store.passes.filter (approvedByTeacherSince teacher_ids week_ago)
    let month_passes := store.passes.filter (approvedByTeacherSince teacher_ids month_ago)
    let avg_week_count : ℚ := (week_passes.length : ℚ) / (teacher_ids.length : ℚ)
    let avg_month_count : ℚ := (month_passes.length : ℚ) / (teacher_ids.length : ℚ)
    let avg_duration := avgOfDurations (month_passes.filterMap passDuration)
    { avg_week_count := roundedOrNone 1 (some avg_week_count)
      avg_month_count := roundedOrNone 1 (some avg_month_count)
      avg_duration := roundedOrNone 2 avg_duration
      has_data := decide (0 < month_passes.length) }

/-- The dict returned by `get_admin_metrics` (lines 269–314) on its
success path: the counts are plain integers (`len(...)`), never null. -/
structure AdminMetricsRaw where
  today_count : Nat
  week_count : Nat
  month_count : Nat
  avg_duration : Option ℚ
  has_data : Bool
  deriving DecidableEq, Repr

/-- The school/window filter of the three count queries of
`get_admin_metrics`: `.eq("school_id", school_id).gte("created_at", cutoff)`. -/
def createdInWindow (school_id : Nat) (cutoff : Int) (p : Pass) : Bool :=
  p.school_id = school_id && cutoff ≤ p.created_at

/-- Helper `get_admin_metrics(school_id, today_start, week_ago, month_ago)`
(`dashboards.py` lines 269–314): school-wide counts over the three
windows, the average duration over the month window, and
`has_data = month_count > 0`. -/
def get_admin_metrics (store : Store) (school_id : Nat)
    (today_start week_ago month_ago : Int) : AdminMetricsRaw :=
  let today_passes := store.passes.filter (createdInWindow school_id today_start)
  let week_passes := store.passes.filter (createdInWindow school_id week_ago)
  let month_passes := store.passes.filter (createdInWindow school_id month_ago)
  let avg_duration := avgOfDurations (month_passes.filterMap passDuration)
  { today_count := today_passes.length
    week_count := week_passes.length
    month_count := month_passes.length
    avg_duration := roundedOrNone 2 avg_duration
    has_data := decide (0 < month_passes.length) }

/-- The `AdminMetrics` pydantic model assembled by `get_admin_dashboard`
(lines 111–118): every field is `Optional` in the schema.
`peak_request_times` is omitted (irrelevant to the claims). -/
structure AdminMetrics where
  total_passes_today : Option Nat
  total_passes_week : Option Nat
  total_passes_month : Option Nat
  avg_pass_duration : Option ℚ
  data_available : Bool
  deriving DecidableEq, Repr

/-- The metrics part of `get_admin_dashboard` (lines 91–128): each count
of the `get_admin_metrics` dict is wrapped by `.get(...)` into the
`Optional` pydantic field, so a zero count becomes `some 0`, not `none`. -/
def admin_dashboard_metrics (store : Store) (school_id : Nat)
    (today_start week_ago month_ago : Int) : AdminMetrics :=
  let raw := get_admin_metrics store school_id today_start week_ago month_ago
  { total_passes_today := some raw.today_count
    total_passes_week := some raw.week_count
    total_passes_month := some raw.month_count
    avg_pass_duration := raw.avg_duration
    data_available := raw.has_data }

/-! ## Claim theorems -/

/-- C2: for every principal and required-roles set, `authorize`
(`require_role`) succeeds when the principal's role is `administrator`
regardless of the set's contents; otherwise it succeeds iff the
principal's role is a member of the set, and on denial the Forbidden
result carries both the caller's actual role and the roles required. -/
theorem C2_require_role_correct (required_roles : List String) (u : CurrentUser) :
    (u.role = "administrator" → require_role required_roles u = .ok u) ∧
    (u.role ≠ "administrator" →
      (require_role required_roles u = .ok u ↔ u.role ∈ required_roles) ∧
      (u.role ∉ required_roles →
        require_role required_roles u = .error (.forbiddenRole required_roles u.role))) := by
  refine ⟨fun h => by simp [require_role, h], fun h => ⟨?_, fun hmem => by simp [require_role, h, hmem]⟩⟩
  by_cases hmem : u.role ∈ required_roles <;> simp [require_role, h, hmem]

/-- Witness for C2: an administrator passes a teacher-only check; a
teacher fails an administrator-only check with a Forbidden carrying role
`teacher` and the required set. -/
theorem C2_require_role_correct_witness :
    require_role ["teacher"] ⟨1, "administrator", 1⟩ = .ok ⟨1, "administrator", 1⟩ ∧
    require_role ["administrator"] ⟨2, "teacher", 1⟩ =
      .error (.forbiddenRole ["administrator"] "teacher") :=
  ⟨(C2_require_role_correct ["teacher"] ⟨1, "administrator", 1⟩).1 rfl,
   ((C2_require_role_correct ["administrator"] ⟨2, "teacher", 1⟩).2 (by decide)).2 (by decide)⟩

/-- C1: the student-side half holds — when the other validations pass,
`request_pass` rejects with the conflict error (HTTP 400,
`alreadyActiveMsg`, carrying no store so creating no pass) whenever the
student already holds a pass in `{pending, approved, active}` — but the
staff-side half is broken code: `issue_pass` returns the schema 500 on
every call, for every store and request, which is not the claimed
conflict rejection; the intended check exists only in the dead remainder
of the handler, where it would reject as claimed. -/
theorem C1_one_active_pass_conflict (store : Store) (u : CurrentUser)
    (req : PassCreateRequest) (now : Int) (new_id : Nat) :
    (∀ loc, findLocation store req.location_id u.school_id = some loc →
      (loc.is_summons_only && !req.is_summons) = false →
      (loc.is_early_release_only && !req.is_early_release) = false →
      hasActivePass store u.id = true →
      request_pass store u req now new_id = .error (.badRequest alreadyActiveMsg)) ∧
    issue_pass store u req = .error issuePassSchemaErr ∧
    issuePassSchemaErr ≠ .badRequest studentAlreadyActiveMsg ∧
    (∀ sid stu loc,
      store.profiles.find?
        (fun pr => pr.id = sid && pr.school_id = u.school_id && pr.role = "student") = some stu →
      findLocation store req.location_id u.school_id = some loc →
      hasActivePass store sid = true →
      issue_pass_dead_body store u req sid now new_id =
        .error (.badRequest studentAlreadyActiveMsg)) := by
  refine ⟨?_, rfl, by decide, ?_⟩
  · intro loc hloc hsum hear hact
    unfold request_pass
    simp [hloc, hsum, hear, hact]
  · intro sid stu loc hstu hloc hact
    unfold issue_pass_dead_body
    simp [hstu, hloc, hact]

/-- A school-1 location that is pre-approved and active. -/
def demoLoc : Location :=
  { id := 1, school_id := 1, name := "Library", default_duration := 5
    requires_approval := false, is_active := true
    is_early_release_only := false, is_summons_only := false }

/-- Student 7 of school 1. -/
def demoStudentProfile : Profile :=
  { id := 7, school_id := 1, role := "student", first_name := "Sam", last_name := "Lee" }

/-- A pending pass of student 7 at school 1. -/
def demoPendingPass : Pass :=
  { id := 1, student_id := 7, location_id := 1, school_id := 1, status := "pending"
    created_at := 0, requested_start_time := 0, requested_end_time := 5
    actual_start_time := none, actual_end_time := none, duration_minutes := none
    approver_id := none, approved_at := none, approval_notes := none
    student_reason := none, is_summons := false, is_early_release := false }

/-- A store in which student 7 already holds a pending pass. -/
def busyStore : Store :=
  { profiles := [demoStudentProfile], locations := [demoLoc], passes := [demoPendingPass] }

/-- The request body naming `demoLoc`. -/
def demoReq : PassCreateRequest :=
  { location_id := 1, student_reason := none, requested_start_time := none
    is_summons := false, is_early_release := false }

/-- Witness for C1, at the failing input: student 7 already holds a
pending pass, so a second `request_pass` by the student is rejected with
the conflict error; an `issue_pass` by teacher 9 of the school returns
the schema 500 instead of the conflict error, although the dead
remainder of the handler would have rejected with it. -/
theorem C1_one_active_pass_conflict_witness :
    request_pass busyStore ⟨7, "student", 1⟩ demoReq 0 2 =
      .error (.badRequest alreadyActiveMsg) ∧
    issue_pass busyStore ⟨9, "teacher", 1⟩ demoReq = .error issuePassSchemaErr ∧
    issue_pass_dead_body busyStore ⟨9, "teacher", 1⟩ demoReq 7 0 2 =
      .error (.badRequest studentAlreadyActiveMsg) :=
  ⟨(C1_one_active_pass_conflict busyStore ⟨7, "student", 1⟩ demoReq 0 2).1
      demoLoc (by decide) (by decide) (by decide) (by decide),
   (C1_one_active_pass_conflict busyStore ⟨9, "teacher", 1⟩ demoReq 0 2).2.1,
   (C1_one_active_pass_conflict busyStore ⟨9, "teacher", 1⟩ demoReq 0 2).2.2.2
      7 demoStudentProfile demoLoc (by decide) (by decide) (by decide)⟩

/-- A store with the active pre-approved location and no passes. -/
def freshStore : Store :=
  { profiles := [demoStudentProfile], locations := [demoLoc], passes := [] }

/-- The pass that `request_pass` creates in `freshStore` for student 7 at
the pre-approved location: auto-approved, `approved_at` stamped, but no
`approver_id` and no approval notes. -/
def autoPass : Pass :=
  { id := 2, student_id := 7, location_id := 1, school_id := 1, status := "approved"
    created_at := 0, requested_start_time := 0, requested_end_time := 5
    actual_start_time := none, actual_end_time := none, duration_minutes := none
    approver_id := none, approved_at := some 0, approval_notes := none
    student_reason := none, is_summons := false, is_early_release := false }

/-- Counterexample to C4: a successful `request_pass` at a pre-approved
location creates a pass with `approved_at` set but `approver_id` absent,
so the two fields are not always set together. -/
theorem C4_counterexample :
    request_pass freshStore ⟨7, "student", 1⟩ demoReq 0 2 =
      .ok (autoPass, { freshStore with passes := [autoPass] }) ∧
    autoPass.approved_at = some 0 ∧ autoPass.approver_id = none := ⟨rfl, rfl, rfl⟩

/-- C4 amended: `approve_pass` sets `approver_id` and `approved_at`
together; `issue_pass` never creates a pass at all — every call fails
with the schema 500, so it never writes either field; `request_pass`
never sets `approver_id` and sets `approved_at` exactly when the pass is
auto-approved, so an auto-approved request carries `approved_at` without
`approver_id`. -/
theorem C4_amended (store : Store) (u : CurrentUser) (req : PassCreateRequest)
    (notes : Option String) (now : Int) (new_id pid : Nat) :
    issue_pass store u req = .error issuePassSchemaErr ∧
    (∀ p s, approve_pass store u pid notes now = .ok (p, s) →
      p.approver_id = some u.id ∧ p.approved_at = some now) ∧
    (∀ p s, request_pass store u req now new_id = .ok (p, s) →
      p.approver_id = none ∧
      (p.approved_at = some now ↔ p.status = "approved") ∧
      (p.approved_at = none ↔ p.status = "pending")) := by
  refine ⟨rfl, fun p s h => ?_, fun p s h => ?_⟩
  · unfold approve_pass at h
    split at h
    · simp at h
    · split at h
      · simp at h
      · simp only [Except.ok.injEq, Prod.mk.injEq] at h
        obtain ⟨hp, -⟩ := h
        subst hp
        exact ⟨rfl, rfl⟩
  · unfold request_pass at h
    split at h
    · simp at h
    · rename_i loc _
      split at h
      · simp at h
      · split at h
        · simp at h
        · split at h
          · simp at h
          · simp only [Except.ok.injEq, Prod.mk.injEq] at h
            obtain ⟨hp, -⟩ := h
            subst hp
            by_cases hra : loc.requires_approval = true <;> simp [hra]

/-- The pass produced by teacher 9 approving `demoPendingPass` at time 3:
approver and timestamp stamped together. -/
def approvedDemoPass : Pass :=
  { demoPendingPass with status := "approved", approver_id := some 9, approved_at := some 3 }

/-- Witness for C4 amended, at concrete inputs: the `issue_pass` call
fails with the schema 500; the concrete `approve_pass` result has
approver and timestamp stamped together; the concrete auto-approved
`request_pass` result (`autoPass`) has no approver and a timestamp
matching its status. -/
theorem C4_amended_witness :
    issue_pass busyStore ⟨9, "teacher", 1⟩ demoReq = .error issuePassSchemaErr ∧
    (approvedDemoPass.approver_id = some 9 ∧ approvedDemoPass.approved_at = some 3) ∧
    (autoPass.approver_id = none ∧
      (autoPass.approved_at = some 0 ↔ autoPass.status = "approved") ∧
      (autoPass.approved_at = none ↔ autoPass.status = "pending")) :=
  ⟨(C4_amended busyStore ⟨9, "teacher", 1⟩ demoReq none 3 2 1).1,
   (C4_amended busyStore ⟨9, "teacher", 1⟩ demoReq none 3 2 1).2.1 approvedDemoPass
      { busyStore with passes := [approvedDemoPass] } rfl,
   (C4_amended freshStore ⟨7, "student", 1⟩ demoReq none 0 2 1).2.2 autoPass
      { freshStore with passes := [autoPass] } rfl⟩

/-- Counterexample to C6: the auto-approved pass created by a successful
`request_pass` carries no approval notes at all, not the notes
`"auto-approved"` the claim requires. -/
theorem C6_counterexample :
    demoLoc.requires_approval = false ∧
    request_pass freshStore ⟨7, "student", 1⟩ demoReq 0 2 =
      .ok (autoPass, { freshStore with passes := [autoPass] }) ∧
    autoPass.approval_notes ≠ some "auto-approved" := ⟨rfl, rfl, by decide⟩

/-- C6 amended: a successful `request_pass` creates the pass with status
`approved` and `approved_at = now` when the location does not require
approval, and with status `pending` and no approval timestamp when it
does; in both cases `approval_notes` is left null (the code writes no
"auto-approved" note). -/
theorem C6_amended (store : Store) (u : CurrentUser) (req : PassCreateRequest)
    (now : Int) (new_id : Nat) (loc : Location) (p : Pass) (s : Store)
    (hloc : findLocation store req.location_id u.school_id = some loc)
    (hok : request_pass store u req now new_id = .ok (p, s)) :
    p.approval_notes = none ∧
    (loc.requires_approval = false →
      p.status = "approved" ∧ p.approved_at = some now) ∧
    (loc.requires_approval = true →
      p.status = "pending" ∧ p.approved_at = none) := by
  unfold request_pass at hok
  simp only [hloc] at hok
  by_cases h1 : (loc.is_summons_only && !req.is_summons) = true
  · rw [if_pos h1] at hok; simp at hok
  · rw [if_neg h1] at hok
    by_cases h2 : (loc.is_early_release_only && !req.is_early_release) = true
    · rw [if_pos h2] at hok; simp at hok
    · rw [if_neg h2] at hok
      by_cases h3 : hasActivePass store u.id = true
      · rw [if_pos h3] at hok; simp at hok
      · rw [if_neg h3] at hok
        simp only [Except.ok.injEq, Prod.mk.injEq] at hok
        obtain ⟨hp, -⟩ := hok
        subst hp
        by_cases hra : loc.requires_approval = true <;> simp [hra]

/-- Witness for C6 amended: the concrete auto-approved request of
`freshStore` satisfies the amended description. -/
theorem C6_amended_witness :
    autoPass.approval_notes = none ∧
    (demoLoc.requires_approval = false →
      autoPass.status = "approved" ∧ autoPass.approved_at = some 0) ∧
    (demoLoc.requires_approval = true →
      autoPass.status = "pending" ∧ autoPass.approved_at = none) :=
  C6_amended freshStore ⟨7, "student", 1⟩ demoReq 0 2 demoLoc autoPass
    { freshStore with passes := [autoPass] } (by decide) rfl

/-- An inactive pre-approved location of school 1. -/
def inactiveLoc : Location :=
  { id := 2, school_id := 1, name := "Gym", default_duration := 10
    requires_approval := false, is_active := false
    is_early_release_only := false, is_summons_only := false }

/-- A store whose only location is inactive. -/
def inactiveStore : Store :=
  { profiles := [demoStudentProfile], locations := [inactiveLoc], passes := [] }

/-- The request body naming the inactive location. -/
def inactiveReq : PassCreateRequest :=
  { location_id := 2, student_reason := none, requested_start_time := none
    is_summons := false, is_early_release := false }

/-- Counterexample to C5: a request naming an inactive location of the
student's own school is not rejected — `request_pass` succeeds and
creates a pass, because the location lookup does not filter on
`is_active`. -/
theorem C5_counterexample :
    inactiveLoc.is_active = false ∧ inactiveLoc.school_id = 1 ∧
    (request_pass inactiveStore ⟨7, "student", 1⟩ inactiveReq 0 3).isOk = true := by decide

/-- C5 amended: `request_pass` requires the location to belong to the
student's school (otherwise `404 Location not found`), but does not check
`is_active`: whenever the location lookup succeeds and the special-flag
and one-active-pass checks pass, the request succeeds regardless of the
location's `is_active` value. -/
theorem C5_amended (store : Store) (u : CurrentUser) (req : PassCreateRequest)
    (now : Int) (new_id : Nat) :
    (findLocation store req.location_id u.school_id = none →
      request_pass store u req now new_id = .error (.notFound "Location not found")) ∧
    (∀ loc, findLocation store req.location_id u.school_id = some loc →
      (loc.is_summons_only && !req.is_summons) = false →
      (loc.is_early_release_only && !req.is_early_release) = false →
      hasActivePass store u.id = false →
      (request_pass store u req now new_id).isOk = true) := by
  constructor
  · intro hnone
    unfold request_pass
    simp [hnone]
  · intro loc hloc hsum hear hact
    unfold request_pass
    simp [hloc, hsum, hear, hact, Except.isOk, Except.toBool]

/-- Witness for C5 amended: in the inactive-location store, a request
naming an unknown location id fails with 404, and the request naming the
inactive location itself succeeds. -/
theorem C5_amended_witness :
    request_pass inactiveStore ⟨7, "student", 1⟩
      { location_id := 99, student_reason := none, requested_start_time := none
        is_summons := false, is_early_release := false } 0 3 =
      .error (.notFound "Location not found") ∧
    (request_pass inactiveStore ⟨7, "student", 1⟩ inactiveReq 0 3).isOk = true :=
  ⟨(C5_amended inactiveStore ⟨7, "student", 1⟩
      { location_id := 99, student_reason := none, requested_start_time := none
        is_summons := false, is_early_release := false } 0 3).1 (by decide),
   (C5_amended inactiveStore ⟨7, "student", 1⟩ inactiveReq 0 3).2
      inactiveLoc (by decide) (by decide) (by decide) (by decide)⟩

/-- After the in-place update `if q.id = pid then upd else q` (with
`upd.id = pid` and `upd.school_id = school`), the school-scoped lookup of
`pid` finds `upd`, provided it found something before. -/
theorem find?_update_eq (l : List Pass) (pid school : Nat) (upd : Pass)
    (hid : upd.id = pid) (hsch : upd.school_id = school)
    (hfound : (l.find? fun p => p.id = pid && p.school_id = school).isSome = true) :
    (l.map fun q => if q.id = pid then upd else q).find?
      (fun p => p.id = pid && p.school_id = school) = some upd := by
  induction l with
  | nil => simp at hfound
  | cons a t ih =>
    by_cases ha : a.id = pid
    · simp only [List.map_cons, List.find?_cons, if_pos ha]
      simp [hid, hsch]
    · have hpa : (decide (a.id = pid) && decide (a.school_id = school)) = false := by
        simp [ha]
      simp only [List.find?_cons, hpa] at hfound
      simp only [List.map_cons, List.find?_cons, if_neg ha, hpa]
      exact ih hfound

/-- C7: `approve_pass` succeeds only on a pass of the caller's school in
status exactly `pending` and fails loudly (`400`, with the offending
status in the detail) otherwise; a second `approve_pass` on the same pass
by staff of the same school fails with the invalid-transition error for
status `approved` (and, carrying no store, applies no approver metadata);
`activate_pass` succeeds only on an own pass in status exactly
`approved` and fails loudly otherwise. -/
theorem C7_transition_guards (store : Store) (u : CurrentUser) (pid : Nat)
    (notes : Option String) (now : Int) :
    (∀ p, store.passes.find? (fun q => q.id = pid && q.school_id = u.school_id) = some p →
      p.status ≠ "pending" →
      approve_pass store u pid notes now = .error (.badRequest (cannotApproveMsg p.status))) ∧
    (∀ p s, approve_pass store u pid notes now = .ok (p, s) →
      p.status = "approved" ∧
      ∃ q, store.passes.find? (fun q => q.id = pid && q.school_id = u.school_id) = some q ∧
        q.status = "pending") ∧
    (∀ p s u2 notes2 now2, approve_pass store u pid notes now = .ok (p, s) →
      u2.school_id = u.school_id →
      approve_pass s u2 pid notes2 now2 = .error (.badRequest (cannotApproveMsg "approved"))) ∧
    (∀ p, store.passes.find? (fun q => q.id = pid && q.student_id = u.id) = some p →
      p.status ≠ "approved" →
      activate_pass store u pid now = .error (.badRequest (cannotActivateMsg p.status))) ∧
    (∀ p s, activate_pass store u pid now = .ok (p, s) →
      ∃ q, store.passes.find? (fun q => q.id = pid && q.student_id = u.id) = some q ∧
        q.status = "approved") := by
  refine ⟨fun p hfind hst => ?_, fun p s h => ?_, fun p s u2 notes2 now2 h h2 => ?_,
    fun p hfind hst => ?_, fun p s h => ?_⟩
  · unfold approve_pass
    simp [hfind, hst]
  · unfold approve_pass at h
    cases hfind : store.passes.find? fun q => q.id = pid && q.school_id = u.school_id with
    | none => simp [hfind] at h
    | some q =>
      simp only [hfind] at h
      by_cases hst : q.status = "pending"
      · rw [if_neg (by simp [hst])] at h
        simp only [Except.ok.injEq, Prod.mk.injEq] at h
        obtain ⟨hp, -⟩ := h
        subst hp
        exact ⟨rfl, q, rfl, hst⟩
      · rw [if_pos hst] at h
        simp at h
  · unfold approve_pass at h
    cases hfind : store.passes.find? fun q => q.id = pid && q.school_id = u.school_id with
    | none => simp [hfind] at h
    | some q =>
      simp only [hfind] at h
      by_cases hst : q.status = "pending"
      · rw [if_neg (by simp [hst])] at h
        simp only [Except.ok.injEq, Prod.mk.injEq] at h
        obtain ⟨hp, hs⟩ := h
        have hq := List.find?_some hfind
        simp only [Bool.and_eq_true, decide_eq_true_eq] at hq
        have hupd := find?_update_eq store.passes pid u.school_id
          { q with status := "approved", approver_id := some u.id
                   approved_at := some now, approval_notes := notes }
          hq.1 hq.2 (by simp [hfind])
        unfold approve_pass
        rw [← hs, h2]
        simp only [hupd]
        simp
      · rw [if_pos hst] at h
        simp at h
  · unfold activate_pass
    simp [hfind, hst]
  · unfold activate_pass at h
    cases hfind : store.passes.find? fun q => q.id = pid && q.student_id = u.id with
    | none => simp [hfind] at h
    | some q =>
      simp only [hfind] at h
      by_cases hst : q.status = "approved"
      · exact ⟨q, rfl, hst⟩
      · rw [if_pos hst] at h
        simp at h

/-- Witness for C7: in the one-pending-pass store, a teacher's approval
succeeds, approving the resulting store again fails with the
invalid-transition error for status `approved`, and activating the
still-pending pass fails with the invalid-transition error for status
`pending`. -/
theorem C7_transition_guards_witness :
    activate_pass busyStore ⟨7, "student", 1⟩ 1 0 =
      .error (.badRequest (cannotActivateMsg "pending")) ∧
    ∀ p s, approve_pass busyStore ⟨9, "teacher", 1⟩ 1 none 0 = .ok (p, s) →
      approve_pass s ⟨9, "teacher", 1⟩ 1 none 1 =
        .error (.badRequest (cannotApproveMsg "approved")) :=
  ⟨(C7_transition_guards busyStore ⟨7, "student", 1⟩ 1 none 0).2.2.2.1
      demoPendingPass (by decide) (by decide),
   fun p s h =>
    (C7_transition_guards busyStore ⟨9, "teacher", 1⟩ 1 none 0).2.2.1 p s ⟨9, "teacher", 1⟩
      none 1 h rfl⟩

/-- A pending pass of student 5 at school 2. -/
def otherSchoolPass : Pass :=
  { id := 1, student_id := 5, location_id := 1, school_id := 2, status := "pending"
    created_at := 0, requested_start_time := 0, requested_end_time := 5
    actual_start_time := none, actual_end_time := none, duration_minutes := none
    approver_id := none, approved_at := none, approval_notes := none
    student_reason := none, is_summons := false, is_early_release := false }

/-- A store holding only `otherSchoolPass`. -/
def crossStore : Store :=
  { profiles := [], locations := [], passes := [otherSchoolPass] }

/-- Counterexample to C3: pass 1 exists, yet a teacher of another school
approving it and a different student activating it both get the
not-found error, not the forbidden error — the lifecycle operations
conflate the two kinds for existing out-of-scope passes. -/
theorem C3_counterexample :
    crossStore.passes.any (fun p => p.id = 1) = true ∧
    approve_pass crossStore ⟨9, "teacher", 1⟩ 1 none 0 =
      .error (.notFound "Pass not found") ∧
    activate_pass crossStore ⟨6, "student", 2⟩ 1 0 =
      .error (.notFound "Pass not found") := ⟨by decide, rfl, rfl⟩

/-- C3 amended: only single-pass retrieval (`get_pass`) preserves the
distinction — forbidden when the pass exists but is out of the caller's
scope, not-found only when no pass with the id exists; `approve_pass`
and `activate_pass` fold the scope condition into the lookup itself and
report not-found whenever the scoped lookup is empty, i.e. both for
missing and for existing out-of-scope passes. -/
theorem C3_amended (store : Store) (u : CurrentUser) (pid : Nat)
    (notes : Option String) (now : Int) :
    (store.passes.find? (fun p => p.id = pid) = none →
      get_pass store u pid = .error (.notFound "Pass not found")) ∧
    (∀ p, store.passes.find? (fun p => p.id = pid) = some p →
      u.role = "student" → p.student_id ≠ u.id →
      get_pass store u pid = .error (.forbidden "You can only view your own passes")) ∧
    (∀ p, store.passes.find? (fun p => p.id = pid) = some p →
      u.role = "teacher" ∨ u.role = "administrator" → p.school_id ≠ u.school_id →
      get_pass store u pid = .error (.forbidden "You can only view passes from your school")) ∧
    (store.passes.find? (fun p => p.id = pid && p.school_id = u.school_id) = none →
      approve_pass store u pid notes now = .error (.notFound "Pass not found")) ∧
    (store.passes.find? (fun p => p.id = pid && p.student_id = u.id) = none →
      activate_pass store u pid now = .error (.notFound "Pass not found")) := by
  refine ⟨fun h => ?_, fun p hfind hrole hne => ?_, fun p hfind hrole hne => ?_,
    fun h => ?_, fun h => ?_⟩
  · unfold get_pass
    simp [h]
  · unfold get_pass
    simp [hfind, hrole, hne]
  · unfold get_pass
    rcases hrole with h | h <;> simp [hfind, h, hne]
  · unfold approve_pass
    simp [h]
  · unfold activate_pass
    simp [h]

/-- Witness for C3 amended: on the concrete one-pass store, retrieval of
the existing pass by an out-of-scope student or teacher is forbidden,
retrieval of a missing id is not-found, and the scoped approve/activate
lookups report not-found. -/
theorem C3_amended_witness :
    get_pass crossStore ⟨6, "student", 2⟩ 99 = .error (.notFound "Pass not found") ∧
    get_pass crossStore ⟨6, "student", 2⟩ 1 =
      .error (.forbidden "You can only view your own passes") ∧
    get_pass crossStore ⟨9, "teacher", 1⟩ 1 =
      .error (.forbidden "You can only view passes from your school") ∧
    approve_pass crossStore ⟨9, "teacher", 1⟩ 1 none 0 =
      .error (.notFound "Pass not found") ∧
    activate_pass crossStore ⟨6, "student", 2⟩ 1 0 =
      .error (.notFound "Pass not found") :=
  ⟨(C3_amended crossStore ⟨6, "student", 2⟩ 99 none 0).1 (by decide),
   (C3_amended crossStore ⟨6, "student", 2⟩ 1 none 0).2.1 otherSchoolPass
      (by decide) rfl (by decide),
   (C3_amended crossStore ⟨9, "teacher", 1⟩ 1 none 0).2.2.1 otherSchoolPass
      (by decide) (Or.inl rfl) (by decide),
   (C3_amended crossStore ⟨9, "teacher", 1⟩ 1 none 0).2.2.2.1 (by decide),
   (C3_amended crossStore ⟨6, "student", 2⟩ 1 none 0).2.2.2.2 (by decide)⟩

/-- C10: every pass returned by the list endpoint is in the caller's
scope, for every store, status filter and pagination choice: a student
only ever receives their own passes, and a teacher or administrator only
passes of their own school. -/
theorem C10_list_scoping (store : Store) (u : CurrentUser)
    (status_filter : Option String) (limit offset : Nat) (p : Pass)
    (hmem : p ∈ get_passes store u status_filter limit offset) :
    (u.role = "student" → p.student_id = u.id) ∧
    (u.role = "teacher" ∨ u.role = "administrator" → p.school_id = u.school_id) := by
  unfold get_passes at hmem
  replace hmem := List.drop_subset _ _ (List.take_subset _ _ hmem)
  rw [List.mem_mergeSort] at hmem
  have hscope : p ∈ (if u.role = "student" then
      store.passes.filter fun q => q.student_id = u.id
    else
      store.passes.filter fun q => q.school_id = u.school_id) := by
    cases status_filter with
    | none => exact hmem
    | some s => exact (List.mem_filter.mp hmem).1
  constructor
  · intro hrole
    rw [if_pos hrole] at hscope
    have := (List.mem_filter.mp hscope).2
    simpa using this
  · intro hrole
    have hne : ¬ u.role = "student" := by
      rcases hrole with h | h <;> rw [h] <;> decide
    rw [if_neg hne] at hscope
    have := (List.mem_filter.mp hscope).2
    simpa using this

/-- A pass of another student (id 8) at school 1. -/
def otherStudentPass : Pass :=
  { id := 3, student_id := 8, location_id := 1, school_id := 1, status := "completed"
    created_at := 2, requested_start_time := 2, requested_end_time := 7
    actual_start_time := none, actual_end_time := none, duration_minutes := none
    approver_id := none, approved_at := none, approval_notes := none
    student_reason := none, is_summons := false, is_early_release := false }

/-- A mixed store: student 7's pending pass, another student's pass at
school 1, and a school-2 pass. -/
def mixedStore : Store :=
  { profiles := [demoStudentProfile], locations := [demoLoc]
    passes := [demoPendingPass, otherStudentPass, otherSchoolPass] }

/-- Membership survives the final sort/paginate steps of `get_passes`
when the whole list fits in the page (`offset = 0`, length ≤ `limit`). -/
theorem mem_sorted_first_page (l : List Pass) (p : Pass) (limit : Nat)
    (hp : p ∈ l) (hlen : l.length ≤ limit) :
    p ∈ ((l.mergeSort fun a b : Pass =>
      decide (b.created_at ≤ a.created_at)).drop 0).take limit := by
  rw [List.drop_zero,
    List.take_of_length_le (by rw [List.length_mergeSort]; exact hlen),
    List.mem_mergeSort]
  exact hp

/-- Witness for C10: in the mixed store, a pass returned to student 7 is
student 7's, and a pass returned to a school-1 teacher is school 1's. -/
theorem C10_list_scoping_witness :
    demoPendingPass ∈ get_passes mixedStore ⟨7, "student", 1⟩ none 50 0 ∧
    demoPendingPass.student_id = 7 ∧
    otherStudentPass ∈ get_passes mixedStore ⟨9, "teacher", 1⟩ none 50 0 ∧
    otherStudentPass.school_id = 1 :=
  have h1 : demoPendingPass ∈ get_passes mixedStore ⟨7, "student", 1⟩ none 50 0 := by
    unfold get_passes
    exact mem_sorted_first_page _ _ _ (by decide) (by decide)
  have h2 : otherStudentPass ∈ get_passes mixedStore ⟨9, "teacher", 1⟩ none 50 0 := by
    unfold get_passes
    exact mem_sorted_first_page _ _ _ (by decide) (by decide)
  ⟨h1,
   (C10_list_scoping mixedStore ⟨7, "student", 1⟩ none 50 0 demoPendingPass h1).1 rfl,
   h2,
   (C10_list_scoping mixedStore ⟨9, "teacher", 1⟩ none 50 0 otherStudentPass h2).2
      (Or.inl rfl)⟩

/-- A school-1 pass far outside every analytics window. -/
def staleSchoolPass : Pass :=
  { id := 1, student_id := 5, location_id := 1, school_id := 1, status := "completed"
    created_at := -50000, requested_start_time := -50000, requested_end_time := -49995
    actual_start_time := some (-50000), actual_end_time := some (-49995)
    duration_minutes := some 5, approver_id := none, approved_at := none
    approval_notes := none, student_reason := none
    is_summons := false, is_early_release := false }

/-- A store whose school-1 history is entirely older than the trailing
30-day window. -/
def staleStore : Store :=
  { profiles := [], locations := [], passes := [staleSchoolPass] }

/-- C8 (code evaluated at the failing input): with zero school-1 passes
in the trailing 30 days (`now = 0`, windows at `-7` and `-30` days in
minutes), the dashboard metrics have `data_available = false` and a null
average, but the three counts are `some 0` — not null as the claim and
the spec require. -/
theorem C8_zero_counts_not_null :
    admin_dashboard_metrics staleStore 1 0 (-10080) (-43200) =
      { total_passes_today := some 0, total_passes_week := some 0
        total_passes_month := some 0, avg_pass_duration := none
        data_available := false } ∧
    (some 0 : Option Nat) ≠ none := by decide

/-- The number of distinct teachers of the school who have ever approved
at least one pass — the divisor C9 describes. -/
def distinctApprovingTeachers (store : Store) (school_id : Nat) : Nat :=
  ((store.profiles.filter fun pr => pr.school_id = school_id && pr.role = "teacher").filter
    fun t => store.passes.any fun p => p.approver_id = some t.id).length

/-- The per-teacher averages as the C9 claim words them (for comparison
with `get_school_teacher_averages`): the week/month window totals divided
by `max 1 (distinctApprovingTeachers)`. -/
def claimed_teacher_averages (store : Store) (school_id : Nat)
    (week_ago month_ago : Int) : ℚ × ℚ :=
  let teacher_ids := (store.profiles.filter fun pr =>
    pr.school_id = school_id && pr.role = "teacher").map (·.id)
  let weekTotal := (store.passes.filter (approvedByTeacherSince teacher_ids week_ago)).length
  let monthTotal := (store.passes.filter (approvedByTeacherSince teacher_ids month_ago)).length
  let divisor : ℚ := max 1 (distinctApprovingTeachers store school_id)
  (weekTotal / divisor, monthTotal / divisor)

/-- Teacher 10 of school 1. -/
def teacherA : Profile :=
  { id := 10, school_id := 1, role := "teacher", first_name := "Ann", last_name := "Ng" }

/-- Teacher 11 of school 1, who never approves anything. -/
def teacherB : Profile :=
  { id := 11, school_id := 1, role := "teacher", first_name := "Bob", last_name := "Oh" }

/-- A pass approved by teacher 10 inside both windows. -/
def approvedPass (i : Nat) : Pass :=
  { id := i, student_id := 20 + i, location_id := 1, school_id := 1, status := "completed"
    created_at := 5, requested_start_time := 5, requested_end_time := 10
    actual_start_time := none, actual_end_time := none, duration_minutes := none
    approver_id := some 10, approved_at := some 5, approval_notes := none
    student_reason := none, is_summons := false, is_early_release := false }

/-- Two teachers, but all four approvals are teacher 10's. -/
def twoTeacherStore : Store :=
  { profiles := [teacherA, teacherB], locations := []
    passes := [approvedPass 1, approvedPass 2, approvedPass 3, approvedPass 4] }

/-- Counterexample to C9: with two teachers in the school and four passes
all approved by one of them, the code's monthly average is `4 / 2 = 2`
(divisor = all teacher profiles of the school), while the claim's formula
(divisor = distinct teachers with at least one approval, floored at 1)
gives `4 / 1 = 4`. -/
theorem C9_counterexample :
    (get_school_teacher_averages twoTeacherStore 1 0 (-10)).avg_month_count = some 2 ∧
    (claimed_teacher_averages twoTeacherStore 1 0 (-10)).2 = 4 ∧
    (some (2 : ℚ) : Option ℚ) ≠ some 4 := by
  refine ⟨?_, ?_, by norm_num⟩
  · show roundedOrNone 1 (some ((4 : Nat) / (2 : Nat) : ℚ)) = some 2
    norm_num [roundedOrNone, pyRound]
  · show ((4 : Nat) : ℚ) / (max 1 ((1 : Nat) : ℚ)) = 4
    norm_num

/-- C9 amended: the school-wide averages divide the window totals by the
number of teacher-role profiles of the school (with an early all-null
return when the school has none, rather than a floored divisor);
`data_available` is true exactly when the month window contains a
teacher-approved pass — in particular it is false when zero teachers of
the school have any approvals. -/
theorem C9_amended (store : Store) (school_id : Nat) (week_ago month_ago : Int)
    (teachers : List Profile)
    (hT : teachers = store.profiles.filter fun pr =>
      pr.school_id = school_id && pr.role = "teacher") :
    (teachers = [] →
      get_school_teacher_averages store school_id week_ago month_ago =
        ⟨none, none, none, false⟩) ∧
    (teachers ≠ [] →
      (get_school_teacher_averages store school_id week_ago month_ago).avg_week_count =
        roundedOrNone 1 (some
          (((store.passes.filter
              (approvedByTeacherSince (teachers.map (·.id)) week_ago)).length : ℚ) /
            (teachers.length : ℚ))) ∧
      (get_school_teacher_averages store school_id week_ago month_ago).avg_month_count =
        roundedOrNone 1 (some
          (((store.passes.filter
              (approvedByTeacherSince (teachers.map (·.id)) month_ago)).length : ℚ) /
            (teachers.length : ℚ))) ∧
      ((get_school_teacher_averages store school_id week_ago month_ago).has_data = true ↔
        0 < (store.passes.filter
          (approvedByTeacherSince (teachers.map (·.id)) month_ago)).length)) ∧
    ((∀ p ∈ store.passes, ∀ t ∈ teachers, ¬ p.approver_id = some t.id) →
      (get_school_teacher_averages store school_id week_ago month_ago).has_data = false) := by
  subst hT
  refine ⟨fun hnil => ?_, fun hne => ?_, fun hnoappr => ?_⟩
  · unfold get_school_teacher_averages
    rw [if_pos (by simp only [List.isEmpty_iff]; exact hnil)]
  · unfold get_school_teacher_averages
    rw [if_neg (by simp only [List.isEmpty_iff]; exact hne)]
    refine ⟨?_, ?_, ?_⟩ <;> simp [List.length_map]
  · unfold get_school_teacher_averages
    by_cases hnil : (store.profiles.filter fun pr =>
        pr.school_id = school_id && pr.role = "teacher") = []
    · rw [if_pos (by simp only [List.isEmpty_iff]; exact hnil)]
    · rw [if_neg (by simp only [List.isEmpty_iff]; exact hnil)]
      have hempty : store.passes.filter
          (approvedByTeacherSince
            ((store.profiles.filter fun pr =>
              pr.school_id = school_id && pr.role = "teacher").map (·.id)) month_ago) = [] := by
        rw [List.filter_eq_nil_iff]
        intro p hp
        unfold approvedByTeacherSince
        rw [Bool.not_eq_true]
        cases happ : p.approver_id with
        | none => simp
        | some a =>
          have hmem : a ∉ ((store.profiles.filter fun pr =>
              pr.school_id = school_id && pr.role = "teacher").map fun x => x.id) := by
            intro hmem
            rcases List.mem_map.mp hmem with ⟨t, ht, hta⟩
            exact hnoappr p hp t ht (by rw [happ, hta])
          have hc : (((store.profiles.filter fun pr =>
              pr.school_id = school_id && pr.role = "teacher").map fun x => x.id).contains a)
              = false := by simpa using hmem
          simp only [hc, Bool.false_and]
      simp [hempty]

/-- Witness for C9 amended: a school with no teacher profiles gets the
all-null early return, and a school whose teachers have no approvals has
`data_available = false`. -/
theorem C9_amended_witness :
    get_school_teacher_averages ⟨[], [], []⟩ 1 0 (-10) = ⟨none, none, none, false⟩ ∧
    (get_school_teacher_averages
      ⟨[teacherA, teacherB], [], [demoPendingPass]⟩ 1 0 (-10)).has_data = false :=
  ⟨(C9_amended ⟨[], [], []⟩ 1 0 (-10) [] (by decide)).1 rfl,
   (C9_amended ⟨[teacherA, teacherB], [], [demoPendingPass]⟩ 1 0 (-10)
      [teacherA, teacherB] (by decide)).2.2 (by decide)⟩

end Hallpass
